import Mathlib

/-!
Verification development for the Sepsis Clinical Decision Support repository.

The repository consists of a Next.js frontend (risk display, patient pages,
SHAP-style explanation chart) and a FastAPI backend hosting the Risk Scoring
and Explanation Engine.  The frontend components present in the source tree
are embedded directly; the backend engine itself is not part of the source
tree, so it is modelled from the specification (each such definition carries
a `Modelled from the spec:` doc comment).  All numeric values are embedded
as rationals.
-/

namespace SepsisCDS

/-! ## Data model -/

/-- Modelled from the spec: the vital-sign portion of a canonical
`FeatureSnapshot` (section 3 of the spec); the backend `main.py` holding the
engine is absent from the source tree. -/
structure VitalSigns where
  temperature : ℚ
  heart_rate : ℚ
  systolic_bp : ℚ
  diastolic_bp : ℚ
  respiratory_rate : ℚ
  oxygen_saturation : ℚ
deriving DecidableEq

/-- Modelled from the spec: the lab-value portion of a canonical
`FeatureSnapshot` (section 3 of the spec). -/
structure LabValues where
  wbc_count : ℚ
  hemoglobin : ℚ
  platelets : ℚ
  creatinine : ℚ
  bun : ℚ
  glucose : ℚ
  sodium : ℚ
  potassium : ℚ
  lactate : ℚ
  bilirubin : ℚ
  alt : ℚ
  ast : ℚ
deriving DecidableEq

/-- Modelled from the spec: a validated canonical feature snapshot
(section 3): every numeric field present, plus an ordered sequence of
free-text symptom strings. -/
structure FeatureSnapshot where
  vital_signs : VitalSigns
  lab_values : LabValues
  symptoms : List String
deriving DecidableEq

/-- Modelled from the spec: one per-feature contribution record
(section 3): feature name, raw value, normalized deviation and the signed
score delta. -/
structure FeatureContribution where
  feature_name : String
  raw_value : ℚ
  deviation : ℚ
  signed_score_delta : ℚ
deriving DecidableEq

/-- Modelled from the spec: the three-way risk category (section 3). -/
inductive RiskLevel where
  | low
  | elevated
  | high
deriving DecidableEq

/-- Display name of a risk level, as surfaced on the wire
(`"Low Risk"`, `"Elevated Risk"`, `"High Risk"`). -/
def levelName : RiskLevel → String
  | RiskLevel.low => "Low Risk"
  | RiskLevel.elevated => "Elevated Risk"
  | RiskLevel.high => "High Risk"

/-- Modelled from the spec: the `RiskAssessment` output record
(section 3).  The timestamp is the only impure ingredient; it is passed in
explicitly by the caller. -/
structure RiskAssessment where
  risk_score : ℚ
  risk_level : RiskLevel
  recommendations : List String
  timestamp : String
deriving DecidableEq

/-- Modelled from the spec: the direction tag of one explanation entry
(section 3). -/
inductive Direction where
  | positive
  | negative
deriving DecidableEq

/-- Modelled from the spec: one ranked explanation entry (section 3):
display name, non-negative importance magnitude, and direction. -/
structure FeatureImportance where
  feature : String
  importance : ℚ
  direction : Direction
deriving DecidableEq

/-- Modelled from the spec: the `Explanation` output record (section 3). -/
structure Explanation where
  feature_importances : List FeatureImportance
  total_impact : ℚ
  interpretation : String
deriving DecidableEq

/-! ## Contribution model (spec section 4.2) -/

/-- Modelled from the spec: one row of the fixed reference table of
section 4.2 and section 9, `feature -> (low, high, weight, polarity)`:
reference band `[low, high]`, weight `w`, and the direction polarity
(`riskUp = true` when a deviation from the band is risk-increasing for this
feature, `false` when the feature is protective and the sign is mirrored). -/
structure FeatureSpec where
  name : String
  low : ℚ
  high : ℚ
  weight : ℚ
  riskUp : Bool
deriving DecidableEq

/-- Modelled from the spec: the fixed, documented lookup table of reference
bands and weights, one entry per vital/lab (section 4.2).  Bands follow the
normal ranges displayed by the frontend (`getVitalStatus` and the lab table
in the patient-detail page); weights are fixed demonstration values.  Every
entry has a risk-increasing deviation direction, which is what makes the
monotonicity property of spec section 8 hold. -/
def featureTable : List FeatureSpec :=
  [ ⟨"Temperature", 96, 502/5, 15, true⟩,
    ⟨"Heart Rate", 60, 100, 12, true⟩,
    ⟨"Systolic BP", 90, 140, 15, true⟩,
    ⟨"Diastolic BP", 60, 90, 5, true⟩,
    ⟨"Respiratory Rate", 12, 20, 10, true⟩,
    ⟨"Oxygen Saturation", 95, 100, 15, true⟩,
    ⟨"WBC Count", 4, 12, 12, true⟩,
    ⟨"Hemoglobin", 12, 16, 4, true⟩,
    ⟨"Platelets", 150000, 450000, 5, true⟩,
    ⟨"Creatinine", 3/5, 6/5, 10, true⟩,
    ⟨"BUN", 7, 20, 5, true⟩,
    ⟨"Glucose", 70, 140, 4, true⟩,
    ⟨"Sodium", 135, 145, 4, true⟩,
    ⟨"Potassium", 7/2, 5, 4, true⟩,
    ⟨"Lactate", 1/2, 2, 20, true⟩,
    ⟨"Bilirubin", 3/10, 6/5, 5, true⟩,
    ⟨"ALT", 7, 56, 3, true⟩,
    ⟨"AST", 10, 40, 3, true⟩ ]

/-- The canonical feature values of a snapshot, in `featureTable` order. -/
def canonicalValues (s : FeatureSnapshot) : List ℚ :=
  [ s.vital_signs.temperature,
    s.vital_signs.heart_rate,
    s.vital_signs.systolic_bp,
    s.vital_signs.diastolic_bp,
    s.vital_signs.respiratory_rate,
    s.vital_signs.oxygen_saturation,
    s.lab_values.wbc_count,
    s.lab_values.hemoglobin,
    s.lab_values.platelets,
    s.lab_values.creatinine,
    s.lab_values.bun,
    s.lab_values.glucose,
    s.lab_values.sodium,
    s.lab_values.potassium,
    s.lab_values.lactate,
    s.lab_values.bilirubin,
    s.lab_values.alt,
    s.lab_values.ast ]

/-- Modelled from the spec: the normalized deviation of a value from its
reference band, `d = max(0, low - value, value - high) / (high - low)`
(section 4.2). -/
def deviationOf (spec : FeatureSpec) (v : ℚ) : ℚ :=
  max 0 (max (spec.low - v) (v - spec.high)) / (spec.high - spec.low)

/-- Modelled from the spec: the signed score delta, `w * d` when the
deviation direction is risk-increasing for the feature, mirrored sign when
the feature is protective (section 4.2). -/
def deltaOf (spec : FeatureSpec) (v : ℚ) : ℚ :=
  if spec.riskUp then spec.weight * deviationOf spec v
  else -(spec.weight * deviationOf spec v)

/-- Modelled from the spec: the contribution record produced for one table
entry (sections 3 and 4.2). -/
def mkContribution (spec : FeatureSpec) (v : ℚ) : FeatureContribution :=
  { feature_name := spec.name
    raw_value := v
    deviation := deviationOf spec v
    signed_score_delta := deltaOf spec v }

/-- Substring test on strings, the embedding of the JavaScript
`String.prototype.includes` used throughout the frontend components. -/
def strIncludes (s sub : String) : Bool :=
  decide (sub.data <:+: s.data)

/-- Modelled from the spec: the small keyword table for symptom matching,
with a fixed weight per keyword (section 4.2). -/
def keywordTable : List (String × ℚ) :=
  [("fever", 8), ("confusion", 10), ("chills", 5)]

/-- Modelled from the spec: symptom contributions (section 4.2):
case-insensitive substring matching of each symptom string against the
keyword table, one contribution per matched symptom keyword, all matches
summed with no deduplication, in table-definition order. -/
def symptomContributions (symptoms : List String) : List FeatureContribution :=
  keywordTable.flatMap fun kw =>
    (symptoms.filter fun sym => strIncludes sym.toLower kw.1).map fun _ =>
      { feature_name := "Symptom: " ++ kw.1
        raw_value := 0
        deviation := 1
        signed_score_delta := kw.2 }

/-- Modelled from the spec: the full ordered contribution sequence
(section 4.2): one entry per table row, then one per matched symptom
keyword. -/
def contributions (s : FeatureSnapshot) : List FeatureContribution :=
  List.zipWith mkContribution featureTable (canonicalValues s)
    ++ symptomContributions s.symptoms

/-! ## Score aggregator (spec section 4.3) -/

/-- Modelled from the spec: the fixed baseline of residual background risk
added to the contribution sum (section 4.3). -/
def baselineRisk : ℚ := 5

/-- The sum of every signed score delta of a snapshot. -/
def sumDeltas (s : FeatureSnapshot) : ℚ :=
  ((contributions s).map fun c => c.signed_score_delta).sum

/-- Modelled from the spec: the aggregated risk score, baseline plus the
sum of all signed score deltas, clamped to `[0, 100]` (section 4.3). -/
def riskScoreOf (s : FeatureSnapshot) : ℚ :=
  min 100 (max 0 (baselineRisk + sumDeltas s))

/-- Modelled from the spec: the fixed inclusive-exclusive threshold map
from the unrounded clamped score to the risk category (section 4.3):
`[0,40)` low, `[40,70)` elevated, `[70,100]` high. -/
def riskLevelOf (x : ℚ) : RiskLevel :=
  if x < 40 then RiskLevel.low
  else if x < 70 then RiskLevel.elevated
  else RiskLevel.high

/-! ## Recommendation generator (spec section 4.5) -/

/-- Modelled from the spec: the fixed category-level guideline block per
risk level (section 4.5). -/
def categoryBlock : RiskLevel → List String
  | RiskLevel.high =>
      [ "Consider sepsis bundle activation",
        "Obtain blood cultures and lactate",
        "Initiate broad-spectrum antibiotics within 1 hour" ]
  | RiskLevel.elevated =>
      [ "Increase monitoring frequency",
        "Reassess vital signs within 1 hour" ]
  | RiskLevel.low =>
      [ "Continue routine monitoring" ]

/-- Modelled from the spec: the feature-triggered recommendation table
(section 4.5): feature name, threshold, whether the trigger fires above the
threshold, and the recommendation text. -/
def triggerTable : List (String × ℚ × Bool × String) :=
  [ ("Lactate", 2, true, "Repeat lactate in 2-4 hours to assess clearance"),
    ("Systolic BP", 90, false, "Consider fluid resuscitation"),
    ("Oxygen Saturation", 92, false, "Consider supplemental oxygen") ]

/-- Whether one trigger row fires on one contribution. -/
def triggerFires (t : String × ℚ × Bool × String) (c : FeatureContribution) : Bool :=
  t.1 = c.feature_name &&
    (if t.2.2.1 then decide (t.2.1 < c.raw_value) else decide (c.raw_value < t.2.1))

/-- Modelled from the spec: the feature-triggered recommendation strings,
in the order their source features appear in the contribution sequence
(section 4.5). -/
def featureTriggered (contribs : List FeatureContribution) : List String :=
  contribs.flatMap fun c =>
    triggerTable.filterMap fun t => if triggerFires t c then some t.2.2.2 else none

/-- First-occurrence deduplication helper: `seen` accumulates the strings
already emitted. -/
def dedupAux (seen : List String) : List String → List String
  | [] => []
  | x :: xs => if x ∈ seen then dedupAux seen xs else x :: dedupAux (x :: seen) xs

/-- First-occurrence deduplication of a list of strings, the embedding of
the deduplication required by spec section 4.5. -/
def dedupRecs (l : List String) : List String :=
  dedupAux [] l

/-- Modelled from the spec: the ordered, deduplicated recommendation
sequence: category block first in fixed order, then the feature-triggered
items (section 4.5). -/
def recommendationsFor (level : RiskLevel) (contribs : List FeatureContribution) :
    List String :=
  dedupRecs (categoryBlock level ++ featureTriggered contribs)

/-! ## The `score` operation (spec section 6) -/

/-- Modelled from the spec: the `score` operation on a validated snapshot
(sections 4.3, 4.5, 6).  The timestamp, the only impure ingredient, is an
explicit argument. -/
def scoreAt (s : FeatureSnapshot) (t : String) : RiskAssessment :=
  { risk_score := riskScoreOf s
    risk_level := riskLevelOf (riskScoreOf s)
    recommendations := recommendationsFor (riskLevelOf (riskScoreOf s)) (contributions s)
    timestamp := t }

/-! ## Attribution ranker / the `explain` operation (spec section 4.4) -/

/-- Modelled from the spec: the negligible-impact threshold below which a
contribution is discarded from the explanation (section 4.4). -/
def negligibleThreshold : ℚ := 1/100

/-- Modelled from the spec: the fixed display count for the explanation
(section 4.4). -/
def topN : ℕ := 8

/-- The contributions kept by the ranker: magnitude at least the
negligible-impact threshold. -/
def keptContribs (contribs : List FeatureContribution) : List FeatureContribution :=
  contribs.filter fun c => negligibleThreshold ≤ |c.signed_score_delta|

/-- Modelled from the spec: conversion of one kept contribution into an
explanation entry (section 4.4): display name, absolute magnitude, and
direction from the sign of the delta. -/
def mkImportance (c : FeatureContribution) : FeatureImportance :=
  { feature := c.feature_name
    importance := |c.signed_score_delta|
    direction := if 0 < c.signed_score_delta then Direction.positive else Direction.negative }

/-- The descending-importance order used by the ranker. -/
def impOrder (a b : FeatureImportance) : Prop :=
  b.importance ≤ a.importance

instance : DecidableRel impOrder :=
  fun a b => inferInstanceAs (Decidable (b.importance ≤ a.importance))

instance : IsTotal FeatureImportance impOrder :=
  ⟨fun a b => le_total b.importance a.importance⟩

instance : IsTrans FeatureImportance impOrder :=
  ⟨fun _ _ _ h1 h2 => le_trans h2 h1⟩

/-- The full (non-truncated) ranked importance list, sorted by descending
magnitude. -/
def rankedImportances (contribs : List FeatureContribution) : List FeatureImportance :=
  List.insertionSort impOrder ((keptContribs contribs).map mkImportance)

/-- Modelled from the spec: the fixed interpretation template keyed on the
risk level and the single top-ranked feature (section 4.4). -/
def interpretationFor (level : RiskLevel) (ranked : List FeatureImportance) : String :=
  match ranked with
  | [] => "All features are within normal ranges, consistent with " ++
      levelName level ++ " classification."
  | top :: _ => "Risk is primarily driven by " ++ top.feature ++
      ", consistent with " ++ levelName level ++ " classification."

/-- Modelled from the spec: the attribution ranker (section 4.4): filter
negligible contributions, rank by descending magnitude, truncate the
display list to `topN`, and sum the importance of the full non-truncated
set as the total impact. -/
def explainContribs (level : RiskLevel) (contribs : List FeatureContribution) :
    Explanation :=
  { feature_importances := (rankedImportances contribs).take topN
    total_impact := ((keptContribs contribs).map fun c => |c.signed_score_delta|).sum
    interpretation := interpretationFor level (rankedImportances contribs) }

/-- Modelled from the spec: the `explain` operation on a validated
snapshot, computed from the identical contribution sequence used by
`score` (sections 4.4 and 6). -/
def explainSnapshot (s : FeatureSnapshot) : Explanation :=
  explainContribs (riskLevelOf (riskScoreOf s)) (contributions s)

/-! ## Feature normalizer (spec sections 4.1, 6, 7) -/

/-- Modelled from the spec: the raw feature map accepted by the
normalizer (section 4.1): fields may be absent, so the vitals and labs are
association lists from field name to numeric value. -/
structure RawSnapshot where
  vital_signs : List (String × ℚ)
  lab_values : List (String × ℚ)
  symptoms : List String

/-- Lookup of one named field in a raw feature map. -/
def lookupField (m : List (String × ℚ)) (name : String) : Option ℚ :=
  (m.find? fun p => p.1 = name).map fun p => p.2

/-- Modelled from the spec: the error class for malformed input
(section 7). -/
inductive ValidationError where
  | malformedSnapshot
deriving DecidableEq

/-- Modelled from the spec: sane physiological bounds per required vital
field, `(name, saneLow, saneHigh)` (section 4.1; for example a negative
heart rate is out of bound). -/
def vitalBounds : List (String × ℚ × ℚ) :=
  [ ("temperature", 70, 115),
    ("heart_rate", 0, 300),
    ("systolic_bp", 0, 300),
    ("diastolic_bp", 0, 250),
    ("respiratory_rate", 0, 100),
    ("oxygen_saturation", 0, 100) ]

/-- Modelled from the spec: optional lab fields with their documented
neutral default and sane bounds, `(name, default, saneLow, saneHigh)`
(section 4.1; an omitted bilirubin defaults to 0.0). -/
def labBounds : List (String × ℚ × ℚ × ℚ) :=
  [ ("wbc_count", 8, 0, 200),
    ("hemoglobin", 14, 0, 30),
    ("platelets", 300000, 0, 2000000),
    ("creatinine", 9/10, 0, 30),
    ("bun", 13, 0, 300),
    ("glucose", 100, 0, 2000),
    ("sodium", 140, 80, 200),
    ("potassium", 17/4, 0, 12),
    ("lactate", 5/4, 0, 30),
    ("bilirubin", 0, 0, 50),
    ("alt", 30, 0, 10000),
    ("ast", 25, 0, 10000) ]

/-- Whether one required vital field is present and within its sane
physiological bounds. -/
def requiredOk (m : List (String × ℚ)) (name : String) (lo hi : ℚ) : Bool :=
  match lookupField m name with
  | none => false
  | some v => decide (lo ≤ v) && decide (v ≤ hi)

/-- Whether one optional lab field is either absent (it then defaults) or
within its sane physiological bounds. -/
def optionalOk (m : List (String × ℚ)) (name : String) (lo hi : ℚ) : Bool :=
  match lookupField m name with
  | none => true
  | some v => decide (lo ≤ v) && decide (v ≤ hi)

/-- Modelled from the spec: a raw snapshot is malformed when a required
vital field is missing or out of its sane bound, or a provided lab value is
out of its sane bound (section 4.1). -/
def malformed (raw : RawSnapshot) : Bool :=
  !((vitalBounds.all fun sp => requiredOk raw.vital_signs sp.1 sp.2.1 sp.2.2) &&
    (labBounds.all fun sp => optionalOk raw.lab_values sp.1 sp.2.2.1 sp.2.2.2))

/-- One vital value of a well-formed raw snapshot (the `0` fallback is
never reached on well-formed input since vitals are required). -/
def vitalValue (raw : RawSnapshot) (name : String) : ℚ :=
  (lookupField raw.vital_signs name).getD 0

/-- One lab value of a raw snapshot, with its documented neutral default
when the lab was not provided. -/
def labValue (raw : RawSnapshot) (name : String) (dflt : ℚ) : ℚ :=
  (lookupField raw.lab_values name).getD dflt

/-- The canonical snapshot built from a well-formed raw snapshot. -/
def buildSnapshot (raw : RawSnapshot) : FeatureSnapshot :=
  { vital_signs :=
      { temperature := vitalValue raw "temperature"
        heart_rate := vitalValue raw "heart_rate"
        systolic_bp := vitalValue raw "systolic_bp"
        diastolic_bp := vitalValue raw "diastolic_bp"
        respiratory_rate := vitalValue raw "respiratory_rate"
        oxygen_saturation := vitalValue raw "oxygen_saturation" }
    lab_values :=
      { wbc_count := labValue raw "wbc_count" 8
        hemoglobin := labValue raw "hemoglobin" 14
        platelets := labValue raw "platelets" 300000
        creatinine := labValue raw "creatinine" (9/10)
        bun := labValue raw "bun" 13
        glucose := labValue raw "glucose" 100
        sodium := labValue raw "sodium" 140
        potassium := labValue raw "potassium" (17/4)
        lactate := labValue raw "lactate" (5/4)
        bilirubin := labValue raw "bilirubin" 0
        alt := labValue raw "alt" 30
        ast := labValue raw "ast" 25 }
    symptoms := raw.symptoms }

/-- Modelled from the spec: the feature normalizer (section 4.1): fails
with a `ValidationError` exactly on malformed input, otherwise returns the
canonical snapshot with every field present. -/
def normalizeRaw (raw : RawSnapshot) : Except ValidationError FeatureSnapshot :=
  if malformed raw then Except.error ValidationError.malformedSnapshot
  else Except.ok (buildSnapshot raw)

/-- Modelled from the spec: the public `score` operation on raw input
(section 6): validation, then the pure engine; either a complete
`RiskAssessment` or an error, never a partial result. -/
def scoreRaw (raw : RawSnapshot) (t : String) : Except ValidationError RiskAssessment :=
  Except.map (fun s => scoreAt s t) (normalizeRaw raw)

/-- Modelled from the spec: the public `explain` operation on raw input
(section 6). -/
def explainRaw (raw : RawSnapshot) : Except ValidationError Explanation :=
  Except.map explainSnapshot (normalizeRaw raw)

/-! ## Frontend components (embedded from the source tree) -/

/-- The generic risk-level classifier shape shared by every frontend
component: substring inclusion with the low-risk value as catch-all
default. -/
def classifyRisk {α : Type} (riskLevel : String) (hi el lo : α) : α :=
  if strIncludes riskLevel "High Risk" then hi
  else if strIncludes riskLevel "Elevated Risk" then el
  else lo

/-- The four style classes returned by `getRiskColor` in the
`RiskAssessment` component. -/
structure RiskColorSet where
  border : String
  bg : String
  text : String
  icon : String
deriving DecidableEq

/-- `getRiskColor` of the `RiskAssessment` frontend component. -/
def getRiskColorAssessment (riskLevel : String) : RiskColorSet :=
  if strIncludes riskLevel "High Risk" then
    ⟨"border-danger-500", "bg-danger-50", "text-danger-700", "text-danger-600"⟩
  else if strIncludes riskLevel "Elevated Risk" then
    ⟨"border-warning-500", "bg-warning-50", "text-warning-700", "text-warning-600"⟩
  else
    ⟨"border-success-500", "bg-success-50", "text-success-700", "text-success-600"⟩

/-- `getRiskBadgeClass` of the patient-detail page. -/
def getRiskBadgeClassDetail (riskLevel : String) : String :=
  if strIncludes riskLevel "High Risk" then "bg-danger-100 text-danger-800 border-danger-200"
  else if strIncludes riskLevel "Elevated Risk" then
    "bg-warning-100 text-warning-800 border-warning-200"
  else "bg-success-100 text-success-800 border-success-200"

/-- `getRiskColor` of the patients list page
(`src/frontend/app/patients/page.tsx`). -/
def getRiskColorPatients (riskLevel : String) : String :=
  if strIncludes riskLevel "High Risk" then "text-danger-600 bg-danger-50"
  else if strIncludes riskLevel "Elevated Risk" then "text-warning-600 bg-warning-50"
  else "text-success-600 bg-success-50"

/-- `getRiskBadgeClass` of the patients list page
(`src/frontend/app/patients/page.tsx`). -/
def getRiskBadgeClassPatients (riskLevel : String) : String :=
  if strIncludes riskLevel "High Risk" then "bg-danger-100 text-danger-800"
  else if strIncludes riskLevel "Elevated Risk" then "bg-warning-100 text-warning-800"
  else "bg-success-100 text-success-800"

/-- `getRiskColor` of the intake page (`src/frontend/app/page.tsx`). -/
def getRiskColorIntake (riskLevel : String) : String :=
  if strIncludes riskLevel "High Risk" then "border-danger-500 bg-danger-50"
  else if strIncludes riskLevel "Elevated Risk" then "border-warning-500 bg-warning-50"
  else "border-success-500 bg-success-50"

/-- The JavaScript `Math.max(...list)`: the maximum of a non-empty list of
numbers; on the empty argument list the JavaScript result is the non-finite
value negative infinity, embedded here as `none`. -/
def jsMax : List ℚ → Option ℚ
  | [] => none
  | x :: xs => some (xs.foldl max x)

/-- The progress-bar width computation of the detailed feature analysis in
`SHAPChart` (`src/frontend/components/SHAPChart.tsx`, line 203):
`Math.min((importance / Math.max(...importances)) * 100, 100)`.  The result
is a well-defined finite number only when the maximum is finite, that is,
only when the importance list is non-empty; the non-finite outcome is
embedded as `none`. -/
def barWidth (imps : List ℚ) (imp : ℚ) : Option ℚ :=
  match jsMax imps with
  | none => none
  | some m => some (min (imp / m * 100) 100)

/-! ## Helper lemmas -/

theorem riskScoreOf_nonneg (s : FeatureSnapshot) : 0 ≤ riskScoreOf s :=
  le_min (by norm_num) (le_max_left 0 _)

theorem riskScoreOf_le_hundred (s : FeatureSnapshot) : riskScoreOf s ≤ 100 :=
  min_le_left _ _

theorem riskLevelOf_eq_low {x : ℚ} : riskLevelOf x = RiskLevel.low ↔ x < 40 := by
  unfold riskLevelOf
  split_ifs with h1 h2
  · exact iff_of_true rfl h1
  · exact iff_of_false (by decide) h1
  · exact iff_of_false (by decide) h1

theorem riskLevelOf_eq_elevated {x : ℚ} :
    riskLevelOf x = RiskLevel.elevated ↔ 40 ≤ x ∧ x < 70 := by
  unfold riskLevelOf
  split_ifs with h1 h2
  · exact iff_of_false (by decide) (by intro h; linarith [h.1])
  · exact iff_of_true rfl ⟨le_of_not_lt h1, h2⟩
  · exact iff_of_false (by decide) (by intro h; exact h2 h.2)

theorem riskLevelOf_eq_high {x : ℚ} : riskLevelOf x = RiskLevel.high ↔ 70 ≤ x := by
  unfold riskLevelOf
  split_ifs with h1 h2
  · exact iff_of_false (by decide) (by intro h; linarith)
  · exact iff_of_false (by decide) (by intro h; linarith)
  · exact iff_of_true rfl (le_of_not_lt h2)

theorem featureTable_entries_ok :
    ∀ spec ∈ featureTable, spec.low < spec.high ∧ 0 < spec.weight ∧ spec.riskUp = true := by
  simp only [featureTable, List.forall_mem_cons]
  norm_num

/-! ## Claims -/

/-- Claim C1: for every valid snapshot the risk score is in `[0, 100]`,
and the risk level is determined from the unrounded score by the fixed
inclusive-exclusive thresholds `[0,40)` low, `[40,70)` elevated,
`[70,100]` high; in particular 39.999 maps to low, 40 to elevated,
69.999 to elevated and 70 to high. -/
theorem score_bounds_and_band_thresholds (s : FeatureSnapshot) (t : String) :
    0 ≤ (scoreAt s t).risk_score ∧ (scoreAt s t).risk_score ≤ 100 ∧
    ((scoreAt s t).risk_level = RiskLevel.low ↔ (scoreAt s t).risk_score < 40) ∧
    ((scoreAt s t).risk_level = RiskLevel.elevated ↔
      40 ≤ (scoreAt s t).risk_score ∧ (scoreAt s t).risk_score < 70) ∧
    ((scoreAt s t).risk_level = RiskLevel.high ↔ 70 ≤ (scoreAt s t).risk_score) ∧
    riskLevelOf (39999/1000) = RiskLevel.low ∧
    riskLevelOf 40 = RiskLevel.elevated ∧
    riskLevelOf (69999/1000) = RiskLevel.elevated ∧
    riskLevelOf 70 = RiskLevel.high :=
  ⟨riskScoreOf_nonneg s, riskScoreOf_le_hundred s,
    riskLevelOf_eq_low, riskLevelOf_eq_elevated, riskLevelOf_eq_high,
    riskLevelOf_eq_low.mpr (by norm_num),
    riskLevelOf_eq_elevated.mpr (by norm_num),
    riskLevelOf_eq_elevated.mpr (by norm_num),
    riskLevelOf_eq_high.mpr (by norm_num)⟩

/-- Claim C2: the engine is deterministic: two invocations of `score` on
the identical snapshot agree on every field except possibly the timestamp,
and two invocations of `explain` agree bit for bit. -/
theorem score_and_explain_deterministic (s : FeatureSnapshot) (t₁ t₂ : String) :
    (scoreAt s t₁).risk_score = (scoreAt s t₂).risk_score ∧
    (scoreAt s t₁).risk_level = (scoreAt s t₂).risk_level ∧
    (scoreAt s t₁).recommendations = (scoreAt s t₂).recommendations ∧
    explainSnapshot s = explainSnapshot s :=
  ⟨rfl, rfl, rfl, rfl⟩

/-- Claim C3: the risk score is the clamp to `[0, 100]` of the fixed
baseline 5 plus the sum of the signed score delta of every contribution in
the contribution sequence. -/
theorem score_is_clamped_baseline_plus_sum (s : FeatureSnapshot) (t : String) :
    (scoreAt s t).risk_score =
      min 100 (max 0 (5 + ((contributions s).map fun c => c.signed_score_delta).sum)) :=
  rfl

/-- Claim C4: for every canonical feature of the reference table the
contribution model computes the normalized deviation
`d = max(0, low - value, value - high) / (high - low)` and sets the signed
score delta to `w * d` for a risk-increasing deviation direction or the
mirrored sign for a protective feature; the deviation is non-negative and
vanishes exactly on values inside the reference band. -/
theorem contribution_model_formula (spec : FeatureSpec) (v : ℚ)
    (hmem : spec ∈ featureTable) :
    (mkContribution spec v).deviation =
      max 0 (max (spec.low - v) (v - spec.high)) / (spec.high - spec.low) ∧
    (mkContribution spec v).signed_score_delta =
      (if spec.riskUp then spec.weight * (mkContribution spec v).deviation
        else -(spec.weight * (mkContribution spec v).deviation)) ∧
    0 ≤ (mkContribution spec v).deviation ∧
    ((mkContribution spec v).deviation = 0 ↔ spec.low ≤ v ∧ v ≤ spec.high) := by
  obtain ⟨hlh, hw, hup⟩ := featureTable_entries_ok spec hmem
  refine ⟨rfl, rfl, ?_, ?_⟩
  · show 0 ≤ deviationOf spec v
    unfold deviationOf
    exact div_nonneg (le_max_left 0 _) (by linarith)
  · show deviationOf spec v = 0 ↔ spec.low ≤ v ∧ v ≤ spec.high
    unfold deviationOf
    have hne : spec.high - spec.low ≠ 0 := sub_ne_zero.mpr (ne_of_gt hlh)
    constructor
    · intro h
      rcases div_eq_zero_iff.mp h with hnum | hden
      · have hm : max (spec.low - v) (v - spec.high) ≤ 0 := max_eq_left_iff.mp hnum
        have h1 := le_trans (le_max_left (spec.low - v) (v - spec.high)) hm
        have h2 := le_trans (le_max_right (spec.low - v) (v - spec.high)) hm
        constructor <;> linarith
      · exact absurd hden hne
    · rintro ⟨h1, h2⟩
      have hm : max (spec.low - v) (v - spec.high) ≤ 0 :=
        max_le (by linarith) (by linarith)
      rw [max_eq_left hm, zero_div]

/-- The oxygen-saturation row of the reference table, for the witness. -/
def spO2Row : FeatureSpec := ⟨"Oxygen Saturation", 95, 100, 15, true⟩

/-- Witness for the contribution-model claim: the oxygen-saturation row is
in the table, and at the abnormally low value 85 the contribution has a
strictly positive score delta (low oxygen saturation increases risk). -/
theorem contribution_model_formula_witness :
    spO2Row ∈ featureTable ∧
    ((mkContribution spO2Row 85).deviation =
        max 0 (max (spO2Row.low - 85) (85 - spO2Row.high)) / (spO2Row.high - spO2Row.low) ∧
      (mkContribution spO2Row 85).signed_score_delta =
        (if spO2Row.riskUp then spO2Row.weight * (mkContribution spO2Row 85).deviation
          else -(spO2Row.weight * (mkContribution spO2Row 85).deviation)) ∧
      0 ≤ (mkContribution spO2Row 85).deviation ∧
      ((mkContribution spO2Row 85).deviation = 0 ↔ spO2Row.low ≤ 85 ∧ 85 ≤ spO2Row.high)) :=
  ⟨by simp [spO2Row, featureTable],
    contribution_model_formula spO2Row 85 (by simp [spO2Row, featureTable])⟩

theorem sum_zipWith_deltaOf_le :
    ∀ (ts : List FeatureSpec) (vs : List ℚ) (i : ℕ) (spec : FeatureSpec) (v v' : ℚ),
      ts[i]? = some spec → vs[i]? = some v → deltaOf spec v ≤ deltaOf spec v' →
      (List.zipWith deltaOf ts vs).sum ≤ (List.zipWith deltaOf ts (vs.set i v')).sum := by
  intro ts
  induction ts with
  | nil => intro vs i spec v v' hts; simp at hts
  | cons t ts ih =>
    intro vs i spec v v' hts hv hdelta
    cases vs with
    | nil => simp at hv
    | cons w vs =>
      cases i with
      | zero =>
        obtain rfl : t = spec := by simpa using hts
        obtain rfl : w = v := by simpa using hv
        simpa using add_le_add_right hdelta (List.zipWith deltaOf ts vs).sum
      | succ i =>
        simp only [List.set_cons_succ, List.zipWith_cons_cons, List.sum_cons]
        exact add_le_add_left
          (ih vs i spec v v' (by simpa using hts) (by simpa using hv) hdelta) _

theorem deltaOf_mono_of_mem {spec : FeatureSpec} (hmem : spec ∈ featureTable)
    {v v' : ℚ} (h : deviationOf spec v ≤ deviationOf spec v') :
    deltaOf spec v ≤ deltaOf spec v' := by
  obtain ⟨-, hw, hup⟩ := featureTable_entries_ok spec hmem
  unfold deltaOf
  rw [hup]
  simp only [if_true]
  exact mul_le_mul_of_nonneg_left h (le_of_lt hw)

theorem sumDeltas_split (s : FeatureSnapshot) :
    sumDeltas s = (List.zipWith deltaOf featureTable (canonicalValues s)).sum +
      ((symptomContributions s.symptoms).map fun c => c.signed_score_delta).sum := by
  unfold sumDeltas contributions
  rw [List.map_append, List.sum_append]
  congr 1

/-- Claim C7: holding every other field fixed, moving one canonical
feature value further outside its reference band (so that its normalized
deviation does not decrease) never decreases the risk score. -/
theorem risk_score_monotone_outward (s s' : FeatureSnapshot) (i : ℕ)
    (spec : FeatureSpec) (v v' : ℚ)
    (hts : featureTable[i]? = some spec)
    (hv : (canonicalValues s)[i]? = some v)
    (hset : canonicalValues s' = (canonicalValues s).set i v')
    (hsym : s'.symptoms = s.symptoms)
    (hdev : deviationOf spec v ≤ deviationOf spec v') :
    riskScoreOf s ≤ riskScoreOf s' := by
  have hmem : spec ∈ featureTable := List.getElem?_mem hts
  have hsum : sumDeltas s ≤ sumDeltas s' := by
    rw [sumDeltas_split, sumDeltas_split, hsym, hset]
    exact add_le_add_right
      (sum_zipWith_deltaOf_le featureTable (canonicalValues s) i spec v v' hts hv
        (deltaOf_mono_of_mem hmem hdev)) _
  unfold riskScoreOf
  exact min_le_min le_rfl (max_le_max le_rfl (by linarith))

/-- An all-normal snapshot, for the monotonicity witness. -/
def snapNormal : FeatureSnapshot :=
  { vital_signs := ⟨98, 75, 115, 75, 16, 98⟩
    lab_values := ⟨8, 14, 300000, 1, 13, 100, 140, 4, 1, 1, 30, 25⟩
    symptoms := [] }

/-- The same snapshot with the temperature moved further above its
reference band, for the monotonicity witness. -/
def snapFever : FeatureSnapshot :=
  { vital_signs := ⟨104, 75, 115, 75, 16, 98⟩
    lab_values := ⟨8, 14, 300000, 1, 13, 100, 140, 4, 1, 1, 30, 25⟩
    symptoms := [] }

/-- The temperature row of the reference table, for the witness. -/
def temperatureRow : FeatureSpec := ⟨"Temperature", 96, 502/5, 15, true⟩

/-- Witness for the monotonicity claim: raising the temperature of an
all-normal snapshot from 98 to 104 while fixing every other field does not
decrease the risk score. -/
theorem risk_score_monotone_outward_witness :
    featureTable[0]? = some temperatureRow ∧
    (canonicalValues snapNormal)[0]? = some 98 ∧
    canonicalValues snapFever = (canonicalValues snapNormal).set 0 104 ∧
    snapFever.symptoms = snapNormal.symptoms ∧
    deviationOf temperatureRow 98 ≤ deviationOf temperatureRow 104 ∧
    riskScoreOf snapNormal ≤ riskScoreOf snapFever :=
  ⟨rfl, rfl, rfl, rfl, by norm_num [deviationOf, temperatureRow, max_def],
    risk_score_monotone_outward snapNormal snapFever 0 temperatureRow 98 104 rfl rfl rfl rfl
      (by norm_num [deviationOf, temperatureRow, max_def])⟩

theorem explainContribs_props (level : RiskLevel) (contribs : List FeatureContribution) :
    List.Sorted impOrder (explainContribs level contribs).feature_importances ∧
    ((explainContribs level contribs).feature_importances.all fun imp =>
        decide (0 ≤ imp.importance) &&
          (contribs.any fun c => decide (imp.importance = |c.signed_score_delta|))) = true ∧
    (explainContribs level contribs).total_impact =
      ((keptContribs contribs).map fun c => |c.signed_score_delta|).sum ∧
    ((explainContribs level contribs).feature_importances.map fun imp => imp.importance).sum ≤
      (explainContribs level contribs).total_impact := by
  have hperm : List.Perm (rankedImportances contribs)
      ((keptContribs contribs).map mkImportance) :=
    List.perm_insertionSort impOrder _
  refine ⟨?_, ?_, rfl, ?_⟩
  · exact List.Pairwise.sublist (List.take_sublist _ _)
      (List.sorted_insertionSort impOrder _)
  · rw [List.all_eq_true]
    intro imp hmem
    have h1 : imp ∈ rankedImportances contribs := List.mem_of_mem_take hmem
    have h2 : imp ∈ (keptContribs contribs).map mkImportance := hperm.mem_iff.mp h1
    obtain ⟨c, hc, rfl⟩ := List.mem_map.mp h2
    rw [Bool.and_eq_true]
    refine ⟨decide_eq_true (abs_nonneg _), ?_⟩
    rw [List.any_eq_true]
    exact ⟨c, List.mem_of_mem_filter hc, decide_eq_true rfl⟩
  · have hnn : ∀ a ∈ (rankedImportances contribs).map fun imp => imp.importance, 0 ≤ a := by
      intro a ha
      obtain ⟨imp, hi, rfl⟩ := List.mem_map.mp ha
      obtain ⟨c, -, rfl⟩ := List.mem_map.mp (hperm.mem_iff.mp hi)
      exact abs_nonneg _
    have hsub : List.Sublist
        (((rankedImportances contribs).take topN).map fun imp => imp.importance)
        ((rankedImportances contribs).map fun imp => imp.importance) :=
      (List.take_sublist _ _).map _
    have heq : ((rankedImportances contribs).map fun imp => imp.importance).sum =
        ((keptContribs contribs).map fun c => |c.signed_score_delta|).sum := by
      rw [(hperm.map fun imp => imp.importance).sum_eq, List.map_map]
      rfl
    calc (((rankedImportances contribs).take topN).map fun imp => imp.importance).sum
        ≤ ((rankedImportances contribs).map fun imp => imp.importance).sum :=
          List.Sublist.sum_le_sum hsub hnn
      _ = ((keptContribs contribs).map fun c => |c.signed_score_delta|).sum := heq

/-- Claim C5: for every valid snapshot the explanation lists the feature
importances sorted by descending importance, each importance is the
non-negative magnitude of the signed score delta of a contribution of the
snapshot, and the total impact is the sum of importance over the full
non-truncated contribution set, so it is at least the sum of the displayed
entries. -/
theorem explanation_sorted_and_total_impact (s : FeatureSnapshot) :
    List.Sorted impOrder (explainSnapshot s).feature_importances ∧
    ((explainSnapshot s).feature_importances.all fun imp =>
        decide (0 ≤ imp.importance) &&
          ((contributions s).any fun c =>
            decide (imp.importance = |c.signed_score_delta|))) = true ∧
    (explainSnapshot s).total_impact =
      ((keptContribs (contributions s)).map fun c => |c.signed_score_delta|).sum ∧
    ((explainSnapshot s).feature_importances.map fun imp => imp.importance).sum ≤
      (explainSnapshot s).total_impact :=
  explainContribs_props (riskLevelOf (riskScoreOf s)) (contributions s)

theorem dedupAux_sublist : ∀ (xs seen : List String), List.Sublist (dedupAux seen xs) xs := by
  intro xs
  induction xs with
  | nil => intro seen; simp [dedupAux]
  | cons x xs ih =>
    intro seen
    show List.Sublist (if x ∈ seen then dedupAux seen xs else x :: dedupAux (x :: seen) xs) _
    split_ifs with h
    · exact (ih seen).trans (List.sublist_cons_self x xs)
    · exact (ih (x :: seen)).cons₂ x

theorem dedupAux_not_mem_seen :
    ∀ (xs seen : List String) (a : String), a ∈ dedupAux seen xs → a ∉ seen := by
  intro xs
  induction xs with
  | nil => intro seen a h; simp [dedupAux] at h
  | cons x xs ih =>
    intro seen a h hseen
    rw [show dedupAux seen (x :: xs) =
        (if x ∈ seen then dedupAux seen xs else x :: dedupAux (x :: seen) xs) from rfl] at h
    split_ifs at h with hx
    · exact ih seen a h hseen
    · rcases List.mem_cons.mp h with rfl | h'
      · exact hx hseen
      · exact ih (x :: seen) a h' (List.mem_cons_of_mem x hseen)

theorem dedupAux_nodup : ∀ (xs seen : List String), (dedupAux seen xs).Nodup := by
  intro xs
  induction xs with
  | nil => intro seen; simp [dedupAux]
  | cons x xs ih =>
    intro seen
    show (if x ∈ seen then dedupAux seen xs else x :: dedupAux (x :: seen) xs).Nodup
    split_ifs with hx
    · exact ih seen
    · refine List.Nodup.cons ?_ (ih (x :: seen))
      intro hmem
      exact dedupAux_not_mem_seen xs (x :: seen) x hmem (List.mem_cons_self x seen)

theorem dedupAux_append :
    ∀ (l₁ l₂ seen : List String), l₁.Nodup → (∀ a ∈ l₁, a ∉ seen) →
      ∃ g, dedupAux seen (l₁ ++ l₂) = l₁ ++ g ∧ List.Sublist g l₂ := by
  intro l₁
  induction l₁ with
  | nil => intro l₂ seen _ _; exact ⟨dedupAux seen l₂, rfl, dedupAux_sublist l₂ seen⟩
  | cons x l₁ ih =>
    intro l₂ seen hnd hse
    have hx : x ∉ seen := hse x (List.mem_cons_self x l₁)
    have hse' : ∀ a ∈ l₁, a ∉ x :: seen := by
      intro a ha hmem
      rcases List.mem_cons.mp hmem with rfl | h'
      · exact (List.nodup_cons.mp hnd).1 ha
      · exact hse a (List.mem_cons_of_mem x ha) h'
    obtain ⟨g, hg, hsub⟩ := ih l₂ (x :: seen) (List.nodup_cons.mp hnd).2 hse'
    refine ⟨g, ?_, hsub⟩
    rw [List.cons_append]
    rw [show dedupAux seen (x :: (l₁ ++ l₂)) =
        (if x ∈ seen then dedupAux seen (l₁ ++ l₂)
          else x :: dedupAux (x :: seen) (l₁ ++ l₂)) from rfl]
    rw [if_neg hx, hg, List.cons_append]

/-- Claim C6: for every risk level and contribution sequence the
recommendation sequence is the fixed category-level guideline block
followed by a subsequence of the feature-triggered items (so the triggered
items keep the order in which their source features appear in the
contribution sequence), and the whole sequence contains no duplicate
strings. -/
theorem recommendations_order_and_nodup (level : RiskLevel)
    (contribs : List FeatureContribution) :
    ∃ g, recommendationsFor level contribs = categoryBlock level ++ g ∧
      List.Sublist g (featureTriggered contribs) ∧
      (recommendationsFor level contribs).Nodup := by
  have hnd : (categoryBlock level).Nodup := by cases level <;> decide
  obtain ⟨g, hg, hsub⟩ :=
    dedupAux_append (categoryBlock level) (featureTriggered contribs) [] hnd
      (by intro a _ h; simp at h)
  exact ⟨g, hg, hsub, dedupAux_nodup _ _⟩

/-- Claim C8: the public `score` (and `explain`) operation fails with a
`ValidationError` exactly when the raw snapshot is malformed (a required
vital sign missing or a value outside its sane physiological bound), and
otherwise succeeds with a complete `RiskAssessment`; the result is always
either an error or a full assessment, never a partial one. -/
theorem score_validation_boundary (raw : RawSnapshot) (t : String) :
    ((∃ e, scoreRaw raw t = Except.error e) ↔ malformed raw = true) ∧
    ((∃ a, scoreRaw raw t = Except.ok a) ↔ malformed raw = false) ∧
    (scoreRaw raw t = Except.error ValidationError.malformedSnapshot ∨
      scoreRaw raw t = Except.ok (scoreAt (buildSnapshot raw) t)) ∧
    ((∃ e, explainRaw raw = Except.error e) ↔ malformed raw = true) := by
  unfold scoreRaw explainRaw normalizeRaw
  cases h : malformed raw
  · simp [h, Except.map]
  · simp [h, Except.map]
    exact ⟨ValidationError.malformedSnapshot, trivial⟩

/-- Claim C9: every frontend component classifies a risk-level string by
substring inclusion with the low-risk styling as catch-all default: each of
the five classifiers equals the generic classifier applied to its style
constants, and unknown, misspelled or empty risk levels receive the
success styling. -/
theorem frontend_risk_classifiers (s : String) :
    getRiskColorAssessment s = classifyRisk s
      ⟨"border-danger-500", "bg-danger-50", "text-danger-700", "text-danger-600"⟩
      ⟨"border-warning-500", "bg-warning-50", "text-warning-700", "text-warning-600"⟩
      ⟨"border-success-500", "bg-success-50", "text-success-700", "text-success-600"⟩ ∧
    getRiskBadgeClassDetail s = classifyRisk s
      "bg-danger-100 text-danger-800 border-danger-200"
      "bg-warning-100 text-warning-800 border-warning-200"
      "bg-success-100 text-success-800 border-success-200" ∧
    getRiskColorPatients s = classifyRisk s
      "text-danger-600 bg-danger-50" "text-warning-600 bg-warning-50"
      "text-success-600 bg-success-50" ∧
    getRiskBadgeClassPatients s = classifyRisk s
      "bg-danger-100 text-danger-800" "bg-warning-100 text-warning-800"
      "bg-success-100 text-success-800" ∧
    getRiskColorIntake s = classifyRisk s
      "border-danger-500 bg-danger-50" "border-warning-500 bg-warning-50"
      "border-success-500 bg-success-50" ∧
    getRiskColorPatients "" = "text-success-600 bg-success-50" ∧
    getRiskColorPatients "Moderate Risk" = "text-success-600 bg-success-50" ∧
    getRiskBadgeClassDetail "hgih risk" =
      "bg-success-100 text-success-800 border-success-200" ∧
    getRiskColorIntake "High Risk" = "border-danger-500 bg-danger-50" ∧
    getRiskColorIntake "Elevated Risk" = "border-warning-500 bg-warning-50" ∧
    getRiskColorIntake "Low Risk" = "border-success-500 bg-success-50" :=
  ⟨rfl, rfl, rfl, rfl, rfl, by decide, by decide, by decide, by decide, by decide, by decide⟩

/-- Claim C10: the progress-bar width in the detailed feature analysis of
`SHAPChart` is the entry importance divided by the maximum importance,
capped at 100; it is a well-defined (finite) value exactly when the
importance list is non-empty, because the maximum of the empty list is the
non-finite JavaScript value negative infinity (embedded as `none`). -/
theorem shap_bar_width_requires_nonempty (imps : List ℚ) (imp x : ℚ) (xs : List ℚ) :
    barWidth [] imp = none ∧
    barWidth (x :: xs) imp = some (min (imp / (xs.foldl max x) * 100) 100) ∧
    (barWidth imps imp).isSome = !imps.isEmpty := by
  refine ⟨rfl, rfl, ?_⟩
  cases imps <;> rfl

end SepsisCDS
